import Mathlib

/-!
Shallow embedding of `sdk/nodejs/runtime/mocks.ts` — the Pulumi test-mode
mock engine (`MockMonitor`). Structured wire values are modelled by `JVal`,
the registry `this.resources` by an association list with JavaScript `Map`
set/get semantics, and each handler by a function from registry and request
to the new registry together with the value delivered through the completion
callback (`Except.error` for `callback(err, undefined)`, `Except.ok` for
`callback(null, response)`).
-/

/-- Structured (protobuf `Struct`-shaped) values as they cross the mock
monitor's boundary: strings, null, and string-keyed maps. -/
inductive JVal where
  | vstr : String → JVal
  | vnull : JVal
  | vmap : List (String × JVal) → JVal
deriving Repr

/-- Result shape of the user-supplied `Mocks.newResource` callback:
`{ id: string | undefined, state: Record<string, any> }`. -/
structure NewResourceResult where
  id : Option String
  state : JVal
deriving Repr

/-- The user extension point (`interface Mocks`): `call` resolves provider
function invocations, `newResource` resolves resource construction. Either
may throw, modelled by `Except.error`. -/
structure Mocks where
  call : String → JVal → String → Except String JVal
  newResource : String → String → JVal → String → String → Bool → Except String NewResourceResult

/-- One registry entry: `{ urn: string, id: string | undefined, state: any }`
as stored in `MockMonitor.resources`. -/
structure RegisteredResource where
  urn : String
  id : Option String
  state : JVal
deriving Repr

/-- The `resources` map of the monitor, keyed by urn. -/
abbrev Registry := List (String × RegisteredResource)

/-- JavaScript `Map.prototype.get`. -/
def regGet : Registry → String → Option RegisteredResource
  | [], _ => none
  | (k, v) :: rest, u => if k = u then some v else regGet rest u

/-- JavaScript `Map.prototype.set`: update in place when the key is present,
append otherwise. -/
def regSet : Registry → String → RegisteredResource → Registry
  | [], u, v => [(u, v)]
  | (k, w) :: rest, u, v => if k = u then (u, v) :: rest else (k, w) :: regSet rest u v

/-- The `MockMonitor` together with its external collaborators: the mocks,
the process-wide stack and project names (`getStack`/`getProject`), and the
property serializer and deserializer (`serializeProperties "" ·` and
`deserializeProperties`), each of which may throw. -/
structure MockMonitor where
  mocks : Mocks
  stack : String
  project : String
  serializeProperties : JVal → Except String JVal
  deserializeProperties : JVal → Except String JVal

/-- JavaScript `s.split("::")` on a character list: cut at each leftmost,
non-overlapping occurrence of `"::"`. -/
def splitColons : List Char → List (List Char)
  | [] => [[]]
  | ':' :: ':' :: rest => [] :: splitColons rest
  | c :: rest =>
    match splitColons rest with
    | [] => [[c]]
    | h :: t => (c :: h) :: t

/-- JavaScript `s.split("$")` on a character list. -/
def splitDollars : List Char → List (List Char)
  | [] => [[]]
  | '$' :: rest => [] :: splitDollars rest
  | c :: rest =>
    match splitDollars rest with
    | [] => [[c]]
    | h :: t => (c :: h) :: t

/-- Embeds `parent.split("::")` from the source. -/
def jsSplitColons (s : String) : List String :=
  (splitColons s.data).map List.asString

/-- Embeds `qualifiedType.split("$")` from the source. -/
def jsSplitDollars (s : String) : List String :=
  (splitDollars s.data).map List.asString

/-- Embeds `MockMonitor.newUrn`. A non-empty `parent` is truthy: split it on `"::"`,
take component 2 (throws a `TypeError` when absent, i.e. fewer than three
components), take the suffix of that component after its last `"$"` (`pop` of
the split, which is never empty), and prefix it to the type with `"$"`. -/
def MockMonitor.newUrn (m : MockMonitor) (parent ty name : String) : Except String String :=
  if parent = "" then
    .ok ("urn:pulumi:" ++ String.intercalate "::" [m.stack, m.project, ty, name])
  else
    match (jsSplitColons parent).get? 2 with
    | none => .error "TypeError: Cannot read properties of undefined"
    | some qualifiedType =>
      let parentType := (jsSplitDollars qualifiedType).getLastD ""
      .ok ("urn:pulumi:" ++ String.intercalate "::" [m.stack, m.project, parentType ++ "$" ++ ty, name])

/-- Reads `inputs.urn` on a deserialized argument object: the `"urn"` field when it
is a string. -/
def jvalUrn : JVal → Option String
  | JVal.vmap fields =>
    match fields.lookup "urn" with
    | some (JVal.vstr s) => some s
    | _ => none
  | _ => none

/-- Embeds `Struct.fromJavaScript(registeredResource)`: the whole entry, an object
with `urn`, `id` and `state` fields, is what the getResource invoke returns. -/
def RegisteredResource.toJVal (rr : RegisteredResource) : JVal :=
  JVal.vmap [("urn", JVal.vstr rr.urn),
             ("id", match rr.id with | some i => JVal.vstr i | none => JVal.vnull),
             ("state", rr.state)]

/-- Request to `invoke`: token, argument struct, provider. -/
structure InvokeRequest where
  tok : String
  args : JVal
  provider : String
deriving Repr

/-- Response of `invoke`, carrying its `return` struct. -/
structure InvokeResponse where
  ret : JVal
deriving Repr

/-- Embeds `MockMonitor.invoke`. The reserved token `pulumi:pulumi:getResource`
serves the registry entry for `args.urn` (the full entry, via
`Struct.fromJavaScript(registeredResource)`), throwing `unknown resource`
when absent; any other token goes to `mocks.call` and the result is
serialized. The registry is never modified. -/
def MockMonitor.invoke (m : MockMonitor) (reg : Registry) (req : InvokeRequest) :
    Except String InvokeResponse :=
  match m.deserializeProperties req.args with
  | .error e => .error e
  | .ok inputs =>
    if req.tok = "pulumi:pulumi:getResource" then
      match jvalUrn inputs with
      | none => .error "unknown resource undefined"
      | some u =>
        match regGet reg u with
        | none => .error ("unknown resource " ++ u)
        | some rr => .ok ⟨rr.toJVal⟩
    else
      match m.mocks.call req.tok inputs req.provider with
      | .error e => .error e
      | .ok result =>
        match m.serializeProperties result with
        | .error e => .error e
        | .ok s => .ok ⟨s⟩

/-- Request to `readResource`: type, name, properties struct, provider,
physical id, custom flag, parent urn (empty when absent). -/
structure ReadResourceRequest where
  ty : String
  name : String
  properties : JVal
  provider : String
  id : String
  custom : Bool
  parent : String
deriving Repr

/-- Response of `readResource`: urn plus serialized state. -/
structure ReadResourceResponse where
  urn : String
  properties : JVal
deriving Repr

/-- Embeds `MockMonitor.readResource`: deserialize the properties, call
`mocks.newResource`, synthesize the urn, serialize the resulting state,
commit `{urn, id, state}` to the registry, and respond with urn and state.
Any throw leaves the registry untouched and goes to the error callback. -/
def MockMonitor.readResource (m : MockMonitor) (reg : Registry) (req : ReadResourceRequest) :
    Registry × Except String ReadResourceResponse :=
  match m.deserializeProperties req.properties with
  | .error e => (reg, .error e)
  | .ok inputs =>
    match m.mocks.newResource req.ty req.name inputs req.provider req.id req.custom with
    | .error e => (reg, .error e)
    | .ok result =>
      match m.newUrn req.parent req.ty req.name with
      | .error e => (reg, .error e)
      | .ok urn =>
        match m.serializeProperties result.state with
        | .error e => (reg, .error e)
        | .ok serializedState =>
          (regSet reg urn ⟨urn, result.id, serializedState⟩, .ok ⟨urn, serializedState⟩)

/-- Request to `registerResource`: type, name, object struct, provider, the
importId, custom flag, parent urn (empty when absent). -/
structure RegisterResourceRequest where
  ty : String
  name : String
  object : JVal
  provider : String
  importid : String
  custom : Bool
  parent : String
deriving Repr

/-- Response of `registerResource`: urn, physical id and serialized state. -/
structure RegisterResourceResponse where
  urn : String
  id : Option String
  object : JVal
deriving Repr

/-- Embeds `MockMonitor.registerResource`: same flow as `readResource`, with inputs
from `object` and the pre-existing id from `importid`; the response also
carries the resolved physical id. -/
def MockMonitor.registerResource (m : MockMonitor) (reg : Registry) (req : RegisterResourceRequest) :
    Registry × Except String RegisterResourceResponse :=
  match m.deserializeProperties req.object with
  | .error e => (reg, .error e)
  | .ok inputs =>
    match m.mocks.newResource req.ty req.name inputs req.provider req.importid req.custom with
    | .error e => (reg, .error e)
    | .ok result =>
      match m.newUrn req.parent req.ty req.name with
      | .error e => (reg, .error e)
      | .ok urn =>
        match m.serializeProperties result.state with
        | .error e => (reg, .error e)
        | .ok serializedState =>
          (regSet reg urn ⟨urn, result.id, serializedState⟩, .ok ⟨urn, result.id, serializedState⟩)

/-- Request to `registerResourceOutputs`: urn and the outputs struct. -/
structure RegisterResourceOutputsRequest where
  urn : String
  outputs : JVal
deriving Repr

/-- Embeds `MockMonitor.registerResourceOutputs`: look the urn up (throw `unknown
resource` when absent) and overwrite the entry's `state` field with the
outputs exactly as given — no serialization, no merge. -/
def MockMonitor.registerResourceOutputs (reg : Registry) (req : RegisterResourceOutputsRequest) :
    Registry × Except String Unit :=
  match regGet reg req.urn with
  | none => (reg, .error ("unknown resource " ++ req.urn))
  | some rr => (regSet reg req.urn { rr with state := req.outputs }, .ok ())

/-! Registry lemmas: JavaScript `Map` get/set interaction. -/

/-- Reading back the key just written returns the written entry. -/
theorem regGet_regSet_self (reg : Registry) (u : String) (v : RegisteredResource) :
    regGet (regSet reg u v) u = some v := by
  induction reg with
  | nil => simp [regSet, regGet]
  | cons kv rest ih =>
    obtain ⟨k, w⟩ := kv
    by_cases h : k = u <;> simp [regSet, regGet, h, ih]

/-- Writing one key leaves every other key's entry unchanged. -/
theorem regGet_regSet_ne (reg : Registry) (u u' : String) (v : RegisteredResource)
    (h : u' ≠ u) : regGet (regSet reg u v) u' = regGet reg u' := by
  induction reg with
  | nil => simp [regSet, regGet, Ne.symm h]
  | cons kv rest ih =>
    obtain ⟨k, w⟩ := kv
    by_cases hk : k = u
    · subst hk
      simp [regSet, regGet, Ne.symm h]
    · by_cases hk' : k = u' <;> simp [regSet, regGet, hk, hk', h, ih]

/-! Concrete scenario from the spec: registering `pkg:mod:Bucket` /
`my-bucket` with mocks that return `{id: "bucket-1",
state: {foo: "bar", arn: "arn:..."}}`, under the default stack and project
names. -/

/-- Serializer and deserializer that pass values through unchanged. -/
def idSerde : JVal → Except String JVal := fun v => .ok v

/-- The state the bucket mocks return for every resource. -/
def bucketState : JVal :=
  JVal.vmap [("foo", JVal.vstr "bar"), ("arn", JVal.vstr "arn:...")]

/-- Mocks of the concrete bucket scenario. -/
def bucketMocks : Mocks where
  call := fun _ _ _ => .error "unrecognized function token"
  newResource := fun _ _ _ _ _ _ => .ok ⟨some "bucket-1", bucketState⟩

/-- A monitor with the bucket mocks and the default stack and project. -/
def bucketMonitor : MockMonitor :=
  ⟨bucketMocks, "stack", "project", idSerde, idSerde⟩

/-- The register request of the concrete scenario (no parent). -/
def bucketRegisterRequest : RegisterResourceRequest :=
  ⟨"pkg:mod:Bucket", "my-bucket", JVal.vmap [("foo", JVal.vstr "bar")], "", "", true, ""⟩

/-- The urn the scenario synthesizes. -/
def bucketUrn : String := "urn:pulumi:stack::project::pkg:mod:Bucket::my-bucket"

/-- The registry after the scenario's register call, starting empty. -/
def bucketRegistry : Registry :=
  (bucketMonitor.registerResource [] bucketRegisterRequest).1

/-- The follow-up getResource invoke request of the scenario. -/
def bucketGetRequest : InvokeRequest :=
  ⟨"pulumi:pulumi:getResource", JVal.vmap [("urn", JVal.vstr bucketUrn)], ""⟩

/-- The registry entry the scenario commits. -/
def bucketEntry : RegisteredResource := ⟨bucketUrn, some "bucket-1", bucketState⟩

/-- A getResource invoke whose urn is present in the registry returns the
full registry entry converted by `Struct.fromJavaScript`. -/
theorem invoke_getResource_of_regGet (m : MockMonitor) (reg : Registry)
    (req : InvokeRequest) (inputs : JVal) (u : String) (rr : RegisteredResource)
    (htok : req.tok = "pulumi:pulumi:getResource")
    (hdes : m.deserializeProperties req.args = .ok inputs)
    (hurn : jvalUrn inputs = some u)
    (hrr : regGet reg u = some rr) :
    m.invoke reg req = .ok ⟨rr.toJVal⟩ := by
  unfold MockMonitor.invoke
  rw [hdes, htok]
  simp [hurn, hrr]

/-- A getResource invoke whose urn is absent from the registry throws the
unknown-resource error. -/
theorem invoke_getResource_of_regGet_none (m : MockMonitor) (reg : Registry)
    (req : InvokeRequest) (inputs : JVal) (u : String)
    (htok : req.tok = "pulumi:pulumi:getResource")
    (hdes : m.deserializeProperties req.args = .ok inputs)
    (hurn : jvalUrn inputs = some u)
    (hnone : regGet reg u = none) :
    m.invoke reg req = .error ("unknown resource " ++ u) := by
  unfold MockMonitor.invoke
  rw [hdes, htok]
  simp [hurn, hnone]

/-- Case analysis of `readResource`: either some step throws and the call
returns the untouched registry with the error, or name synthesis succeeded
and the call commits `{urn, id, state}` under the synthesized urn. -/
theorem readResource_cases (m : MockMonitor) (reg : Registry) (req : ReadResourceRequest) :
    (∃ e, m.readResource reg req = (reg, .error e)) ∨
    (∃ urn i st, m.newUrn req.parent req.ty req.name = .ok urn ∧
      m.readResource reg req = (regSet reg urn ⟨urn, i, st⟩, .ok ⟨urn, st⟩)) := by
  unfold MockMonitor.readResource
  split
  · exact .inl ⟨_, rfl⟩
  · split
    · exact .inl ⟨_, rfl⟩
    · split
      · exact .inl ⟨_, rfl⟩
      · split
        · exact .inl ⟨_, rfl⟩
        · refine .inr ⟨_, _, _, ?_, rfl⟩
          assumption

/-- Case analysis of `registerResource`, mirroring `readResource_cases`. -/
theorem registerResource_cases (m : MockMonitor) (reg : Registry)
    (req : RegisterResourceRequest) :
    (∃ e, m.registerResource reg req = (reg, .error e)) ∨
    (∃ urn i st, m.newUrn req.parent req.ty req.name = .ok urn ∧
      m.registerResource reg req = (regSet reg urn ⟨urn, i, st⟩, .ok ⟨urn, i, st⟩)) := by
  unfold MockMonitor.registerResource
  split
  · exact .inl ⟨_, rfl⟩
  · split
    · exact .inl ⟨_, rfl⟩
    · split
      · exact .inl ⟨_, rfl⟩
      · split
        · exact .inl ⟨_, rfl⟩
        · refine .inr ⟨_, _, _, ?_, rfl⟩
          assumption

/-- C1, counterexample. In the spec's own concrete scenario the follow-up
`invoke("pulumi:pulumi:getResource", {urn})` does not return the committed
state mapping `{foo: "bar", arn: "arn:..."}`: it returns the whole registry
entry `{urn, id, state}`, with that mapping nested under `"state"`. -/
theorem c1_getResource_not_bare_state :
    bucketMonitor.invoke bucketRegistry bucketGetRequest =
      .ok ⟨JVal.vmap [("urn", JVal.vstr bucketUrn),
                      ("id", JVal.vstr "bucket-1"),
                      ("state", bucketState)]⟩ ∧
    bucketMonitor.invoke bucketRegistry bucketGetRequest ≠ .ok ⟨bucketState⟩ := by
  constructor
  · rfl
  · intro h
    have h1 : bucketEntry.toJVal = bucketState :=
      congrArg InvokeResponse.ret (Except.ok.inj h)
    have h2 := JVal.vmap.inj h1
    have h3 := congrArg Prod.fst (List.head_eq_of_cons_eq h2)
    exact absurd h3 (by decide)

/-- C1, amended. For a urn committed to the registry, the getResource invoke
returns the full registry entry (urn, physical id, and the last committed
serialized state, nested under `"state"`); for a urn not in the registry it
fails with the unknown-resource error. -/
theorem c1_getResource_returns_entry (m : MockMonitor) (reg : Registry)
    (req : InvokeRequest) (inputs : JVal) (u : String)
    (htok : req.tok = "pulumi:pulumi:getResource")
    (hdes : m.deserializeProperties req.args = .ok inputs)
    (hurn : jvalUrn inputs = some u) :
    (∀ rr, regGet reg u = some rr → m.invoke reg req = .ok ⟨rr.toJVal⟩) ∧
    (regGet reg u = none → m.invoke reg req = .error ("unknown resource " ++ u)) :=
  ⟨fun rr hrr => invoke_getResource_of_regGet m reg req inputs u rr htok hdes hurn hrr,
   fun hnone => invoke_getResource_of_regGet_none m reg req inputs u htok hdes hurn hnone⟩

/-- C1, witness: the amended theorem applied to the concrete bucket scenario,
in both its registered and its unregistered branch. -/
theorem c1_getResource_returns_entry_witness :
    bucketMonitor.invoke bucketRegistry bucketGetRequest = .ok ⟨bucketEntry.toJVal⟩ ∧
    bucketMonitor.invoke [] bucketGetRequest = .error ("unknown resource " ++ bucketUrn) :=
  ⟨(c1_getResource_returns_entry bucketMonitor bucketRegistry bucketGetRequest
      (JVal.vmap [("urn", JVal.vstr bucketUrn)]) bucketUrn rfl rfl rfl).1 bucketEntry rfl,
   (c1_getResource_returns_entry bucketMonitor [] bucketGetRequest
      (JVal.vmap [("urn", JVal.vstr bucketUrn)]) bucketUrn rfl rfl rfl).2 rfl⟩

/-- C2. When the parent's name has a qualified type segment `qt` (its third
`"::"`-component) and the suffix of `qt` after its last `"$"` is `pt`, the
synthesized child name's type segment is `pt ++ "$" ++ type`: only the
innermost segment of the parent's chain is inherited, never the whole chain. -/
theorem c2_child_inherits_innermost_segment (m : MockMonitor) (parent ty name qt pt : String)
    (hp : parent ≠ "")
    (hqt : (jsSplitColons parent).get? 2 = some qt)
    (hpt : (jsSplitDollars qt).getLastD "" = pt) :
    m.newUrn parent ty name =
      .ok ("urn:pulumi:" ++ String.intercalate "::" [m.stack, m.project, pt ++ "$" ++ ty, name]) := by
  unfold MockMonitor.newUrn
  rw [if_neg hp, hqt]
  rw [List.getLastD_eq_getLast?] at hpt
  simp [hpt]

/-- C2, witness: a parent whose qualified type segment is the chain `A$B`
and a child of type `C` produce the segment `B$C`, not `A$B$C`. -/
theorem c2_child_inherits_innermost_segment_witness :
    bucketMonitor.newUrn "urn:pulumi:stack::project::A$B::p" "C" "n" =
      .ok "urn:pulumi:stack::project::B$C::n" :=
  c2_child_inherits_innermost_segment bucketMonitor
    "urn:pulumi:stack::project::A$B::p" "C" "n" "A$B" "B" (by decide) rfl rfl

/-- C3. With no parent (the empty parent string) the synthesized name is
`"urn:pulumi:"` followed by stack name, project name, the unchanged type
token and the logical name, joined with `"::"`. -/
theorem c3_no_parent_urn (m : MockMonitor) (ty name : String) :
    m.newUrn "" ty name =
      .ok ("urn:pulumi:" ++ m.stack ++ "::" ++ m.project ++ "::" ++ ty ++ "::" ++ name) := by
  have h : m.newUrn "" ty name =
      .ok ("urn:pulumi:" ++ (((m.stack ++ "::" ++ m.project) ++ "::" ++ ty) ++ "::" ++ name)) := rfl
  rw [h]
  simp [String.append_assoc]

/-- C4. For a registered urn, two successive `registerResourceOutputs` calls
both succeed and leave exactly the second payload as the stored state — the
payload as given, unserialized, with no merge of the two. -/
theorem c4_outputs_full_replacement (reg : Registry) (u : String) (o1 o2 : JVal)
    (rr : RegisteredResource) (h : regGet reg u = some rr) :
    (MockMonitor.registerResourceOutputs reg ⟨u, o1⟩).2 = .ok () ∧
    (MockMonitor.registerResourceOutputs
      (MockMonitor.registerResourceOutputs reg ⟨u, o1⟩).1 ⟨u, o2⟩).2 = .ok () ∧
    regGet (MockMonitor.registerResourceOutputs
      (MockMonitor.registerResourceOutputs reg ⟨u, o1⟩).1 ⟨u, o2⟩).1 u =
        some ⟨rr.urn, rr.id, o2⟩ := by
  simp [MockMonitor.registerResourceOutputs, h, regGet_regSet_self]

/-- C4, witness: replacing the bucket's committed state twice stores only the
second payload. -/
theorem c4_outputs_full_replacement_witness :
    (MockMonitor.registerResourceOutputs bucketRegistry ⟨bucketUrn, JVal.vstr "one"⟩).2 = .ok () ∧
    (MockMonitor.registerResourceOutputs
      (MockMonitor.registerResourceOutputs bucketRegistry ⟨bucketUrn, JVal.vstr "one"⟩).1
      ⟨bucketUrn, JVal.vstr "two"⟩).2 = .ok () ∧
    regGet (MockMonitor.registerResourceOutputs
      (MockMonitor.registerResourceOutputs bucketRegistry ⟨bucketUrn, JVal.vstr "one"⟩).1
      ⟨bucketUrn, JVal.vstr "two"⟩).1 bucketUrn =
        some ⟨bucketEntry.urn, bucketEntry.id, JVal.vstr "two"⟩ :=
  c4_outputs_full_replacement bucketRegistry bucketUrn
    (JVal.vstr "one") (JVal.vstr "two") bucketEntry rfl

/-- C5. For a getResource invoke and for `registerResourceOutputs`, the call
fails (delivers an error through the callback) exactly when the referenced
urn is absent from the registry; when it is present the lookup branch
succeeds. -/
theorem c5_unknown_resource_iff_absent (m : MockMonitor) (reg : Registry)
    (req : InvokeRequest) (inputs : JVal) (u : String) (o : JVal)
    (htok : req.tok = "pulumi:pulumi:getResource")
    (hdes : m.deserializeProperties req.args = .ok inputs)
    (hurn : jvalUrn inputs = some u) :
    ((∃ e, m.invoke reg req = .error e) ↔ regGet reg u = none) ∧
    ((∃ e, (MockMonitor.registerResourceOutputs reg ⟨u, o⟩).2 = .error e) ↔
      regGet reg u = none) := by
  cases hreg : regGet reg u with
  | none =>
    refine ⟨iff_of_true ⟨"unknown resource " ++ u,
      invoke_getResource_of_regGet_none m reg req inputs u htok hdes hurn hreg⟩ rfl,
      iff_of_true ⟨"unknown resource " ++ u, ?_⟩ rfl⟩
    simp [MockMonitor.registerResourceOutputs, hreg]
  | some rr =>
    have hinv := invoke_getResource_of_regGet m reg req inputs u rr htok hdes hurn hreg
    refine ⟨iff_of_false ?_ (by simp), iff_of_false ?_ (by simp)⟩
    · rintro ⟨e, he⟩
      rw [hinv] at he
      cases he
    · rintro ⟨e, he⟩
      simp [MockMonitor.registerResourceOutputs, hreg] at he

/-- C5, witness: on the empty registry both paths fail, and the failure is
equivalent to the urn's absence. -/
theorem c5_unknown_resource_iff_absent_witness :
    ((∃ e, bucketMonitor.invoke [] bucketGetRequest = .error e) ↔
      regGet ([] : Registry) bucketUrn = none) ∧
    ((∃ e, (MockMonitor.registerResourceOutputs ([] : Registry)
        ⟨bucketUrn, JVal.vnull⟩).2 = .error e) ↔
      regGet ([] : Registry) bucketUrn = none) :=
  c5_unknown_resource_iff_absent bucketMonitor [] bucketGetRequest
    (JVal.vmap [("urn", JVal.vstr bucketUrn)]) bucketUrn JVal.vnull rfl rfl rfl

/-- C6. Whenever `readResource` or `registerResource` delivers an error
through the callback — the `newResource` callback threw, serialization or
deserialization threw, or name synthesis threw — the registry is returned
completely unchanged. -/
theorem c6_failed_call_leaves_registry (m : MockMonitor) (reg : Registry)
    (rreq : ReadResourceRequest) (greq : RegisterResourceRequest) :
    (∀ e, (m.readResource reg rreq).2 = .error e → (m.readResource reg rreq).1 = reg) ∧
    (∀ e, (m.registerResource reg greq).2 = .error e → (m.registerResource reg greq).1 = reg) := by
  constructor
  · intro e he
    rcases readResource_cases m reg rreq with ⟨e', hh⟩ | ⟨urn, i, st, -, hh⟩
    · rw [hh]
    · rw [hh] at he
      simp at he
  · intro e he
    rcases registerResource_cases m reg greq with ⟨e', hh⟩ | ⟨urn, i, st, -, hh⟩
    · rw [hh]
    · rw [hh] at he
      simp at he

/-- Mocks whose resource construction always throws, for exercising the
failure path. -/
def failingMocks : Mocks where
  call := fun _ _ _ => .error "call failed"
  newResource := fun _ _ _ _ _ _ => .error "newResource failed"

/-- A monitor built on the failing mocks. -/
def failingMonitor : MockMonitor :=
  ⟨failingMocks, "stack", "project", idSerde, idSerde⟩

/-- A read request used in concrete failure scenarios. -/
def dummyReadRequest : ReadResourceRequest :=
  ⟨"pkg:mod:Res", "res", JVal.vnull, "", "", true, ""⟩

/-- A register request used in concrete failure scenarios. -/
def dummyRegisterRequest : RegisterResourceRequest :=
  ⟨"pkg:mod:Res", "res", JVal.vnull, "", "", true, ""⟩

/-- C6, witness: a `newResource` throw during read and register leaves the
one-entry registry exactly as it was. -/
theorem c6_failed_call_leaves_registry_witness :
    (failingMonitor.readResource [(bucketUrn, bucketEntry)] dummyReadRequest).1 =
      [(bucketUrn, bucketEntry)] ∧
    (failingMonitor.registerResource [(bucketUrn, bucketEntry)] dummyRegisterRequest).1 =
      [(bucketUrn, bucketEntry)] := by
  have h := c6_failed_call_leaves_registry failingMonitor
    [(bucketUrn, bucketEntry)] dummyReadRequest dummyRegisterRequest
  exact ⟨h.1 "newResource failed" rfl, h.2 "newResource failed" rfl⟩

/-- C7. A successful `registerResourceOutputs` changes only the `state` field
of the entry keyed by the given urn: the entry keeps its `urn` and `id`, and
every other key's entry is untouched. -/
theorem c7_outputs_frame (reg : Registry) (u : String) (o : JVal)
    (rr : RegisteredResource) (h : regGet reg u = some rr) :
    (MockMonitor.registerResourceOutputs reg ⟨u, o⟩).2 = .ok () ∧
    regGet (MockMonitor.registerResourceOutputs reg ⟨u, o⟩).1 u = some ⟨rr.urn, rr.id, o⟩ ∧
    ∀ u', u' ≠ u →
      regGet (MockMonitor.registerResourceOutputs reg ⟨u, o⟩).1 u' = regGet reg u' := by
  refine ⟨by simp [MockMonitor.registerResourceOutputs, h],
    by simp [MockMonitor.registerResourceOutputs, h, regGet_regSet_self], ?_⟩
  intro u' hu
  simp only [MockMonitor.registerResourceOutputs, h]
  exact regGet_regSet_ne reg u u' _ hu

/-- C7, witness: overwriting the bucket's outputs keeps its urn and id,
stores the new state, and leaves an unrelated key's (absent) entry as is. -/
theorem c7_outputs_frame_witness :
    (MockMonitor.registerResourceOutputs bucketRegistry ⟨bucketUrn, JVal.vnull⟩).2 = .ok () ∧
    regGet (MockMonitor.registerResourceOutputs bucketRegistry ⟨bucketUrn, JVal.vnull⟩).1
      bucketUrn = some ⟨bucketEntry.urn, bucketEntry.id, JVal.vnull⟩ ∧
    regGet (MockMonitor.registerResourceOutputs bucketRegistry ⟨bucketUrn, JVal.vnull⟩).1
      "urn:pulumi:stack::project::other::o" = regGet bucketRegistry
      "urn:pulumi:stack::project::other::o" := by
  obtain ⟨h1, h2, h3⟩ := c7_outputs_frame bucketRegistry bucketUrn JVal.vnull bucketEntry rfl
  exact ⟨h1, h2, h3 "urn:pulumi:stack::project::other::o" (by decide)⟩

/-- C8. After a successful `readResource` or `registerResource`, the registry
holds an entry under the urn carried by the response, so a getResource invoke
asking for that urn succeeds rather than failing with an unknown-resource
error. -/
theorem c8_commit_enables_getResource (m : MockMonitor) (reg : Registry)
    (rreq : ReadResourceRequest) (greq : RegisterResourceRequest)
    (ireq : InvokeRequest) (inputs : JVal)
    (htok : ireq.tok = "pulumi:pulumi:getResource")
    (hdes : m.deserializeProperties ireq.args = .ok inputs) :
    (∀ resp, (m.readResource reg rreq).2 = .ok resp → jvalUrn inputs = some resp.urn →
      ∃ r, m.invoke (m.readResource reg rreq).1 ireq = .ok r) ∧
    (∀ resp, (m.registerResource reg greq).2 = .ok resp → jvalUrn inputs = some resp.urn →
      ∃ r, m.invoke (m.registerResource reg greq).1 ireq = .ok r) := by
  constructor
  · intro resp hok hurn
    rcases readResource_cases m reg rreq with ⟨e, hh⟩ | ⟨urn, i, st, -, hh⟩
    · rw [hh] at hok
      simp at hok
    · rw [hh] at hok ⊢
      replace hok : ReadResourceResponse.mk urn st = resp := by simpa using hok
      subst hok
      exact ⟨⟨(⟨urn, i, st⟩ : RegisteredResource).toJVal⟩,
        invoke_getResource_of_regGet m _ ireq inputs urn ⟨urn, i, st⟩ htok hdes hurn
          (regGet_regSet_self reg urn ⟨urn, i, st⟩)⟩
  · intro resp hok hurn
    rcases registerResource_cases m reg greq with ⟨e, hh⟩ | ⟨urn, i, st, -, hh⟩
    · rw [hh] at hok
      simp at hok
    · rw [hh] at hok ⊢
      replace hok : RegisterResourceResponse.mk urn i st = resp := by simpa using hok
      subst hok
      exact ⟨⟨(⟨urn, i, st⟩ : RegisteredResource).toJVal⟩,
        invoke_getResource_of_regGet m _ ireq inputs urn ⟨urn, i, st⟩ htok hdes hurn
          (regGet_regSet_self reg urn ⟨urn, i, st⟩)⟩

/-- C8, witness: after the concrete bucket registration, the follow-up
getResource invoke for the response's urn succeeds. -/
theorem c8_commit_enables_getResource_witness :
    ∃ r, bucketMonitor.invoke
      (bucketMonitor.registerResource [] bucketRegisterRequest).1 bucketGetRequest = .ok r := by
  have h := c8_commit_enables_getResource bucketMonitor [] dummyReadRequest
    bucketRegisterRequest bucketGetRequest (JVal.vmap [("urn", JVal.vstr bucketUrn)]) rfl rfl
  exact h.2 ⟨bucketUrn, some "bucket-1", bucketState⟩ rfl rfl

/-- C9, counterexample. Two registrations with distinct parent/type/name
triples — the parents differ, even in their stack, project and qualified
type chain — synthesize the same name, because the name depends on the
parent only through the innermost segment of its qualified type. -/
theorem c9_distinct_triples_same_name :
    ("urn:pulumi:stack::project::A$B::p1" : String) ≠ "urn:pulumi:s2::p2::X$B::q" ∧
    bucketMonitor.newUrn "urn:pulumi:stack::project::A$B::p1" "C" "n" =
      bucketMonitor.newUrn "urn:pulumi:s2::p2::X$B::q" "C" "n" :=
  ⟨by decide, rfl⟩

/-- C9, amended. Name synthesis is deterministic — a pure function of stack,
project, parent, type and name — and the parent enters only through the
innermost `"$"`-segment of its qualified type: two parents sharing that
segment yield identical names for the same type and logical name, so
distinct triples need not yield distinct names. -/
theorem c9_name_depends_only_on_innermost (m : MockMonitor) (p q ty name : String)
    (hp : p ≠ "") (hq : q ≠ "") (qt qt' : String)
    (hqt : (jsSplitColons p).get? 2 = some qt)
    (hqt' : (jsSplitColons q).get? 2 = some qt')
    (hlast : (jsSplitDollars qt).getLastD "" = (jsSplitDollars qt').getLastD "") :
    m.newUrn p ty name = m.newUrn q ty name := by
  unfold MockMonitor.newUrn
  rw [if_neg hp, if_neg hq, hqt, hqt']
  rw [List.getLastD_eq_getLast?, List.getLastD_eq_getLast?] at hlast
  simp [hlast]

/-- C9, witness: the dependence theorem applied to the two concrete parents
of the counterexample, whose innermost segment is `B` in both. -/
theorem c9_name_depends_only_on_innermost_witness :
    bucketMonitor.newUrn "urn:pulumi:stack::project::A$B::p1" "C" "n" =
      bucketMonitor.newUrn "urn:pulumi:s2::p2::X$B::q" "C" "n" :=
  c9_name_depends_only_on_innermost bucketMonitor
    "urn:pulumi:stack::project::A$B::p1" "urn:pulumi:s2::p2::X$B::q" "C" "n"
    (by decide) (by decide) "A$B" "X$B" rfl rfl rfl

/-- C10. A non-empty parent with fewer than three `"::"`-separated components
makes name synthesis access a missing qualified-type component; both `read`
and `register` then deliver an error through the callback — nothing is thrown
past the handler — and the registry is completely unchanged. -/
theorem c10_malformed_parent_caught (m : MockMonitor) (reg : Registry)
    (rreq : ReadResourceRequest) (greq : RegisterResourceRequest)
    (hp : rreq.parent ≠ "") (hl : (jsSplitColons rreq.parent).length ≤ 2)
    (hp' : greq.parent ≠ "") (hl' : (jsSplitColons greq.parent).length ≤ 2) :
    ((m.readResource reg rreq).1 = reg ∧ ∃ e, (m.readResource reg rreq).2 = .error e) ∧
    ((m.registerResource reg greq).1 = reg ∧ ∃ e, (m.registerResource reg greq).2 = .error e) := by
  have hu : ∀ ty nm, m.newUrn rreq.parent ty nm =
      .error "TypeError: Cannot read properties of undefined" := by
    intro ty nm
    unfold MockMonitor.newUrn
    rw [if_neg hp, List.get?_eq_none.mpr hl]
  have hu' : ∀ ty nm, m.newUrn greq.parent ty nm =
      .error "TypeError: Cannot read properties of undefined" := by
    intro ty nm
    unfold MockMonitor.newUrn
    rw [if_neg hp', List.get?_eq_none.mpr hl']
  constructor
  · rcases readResource_cases m reg rreq with ⟨e, hh⟩ | ⟨urn, i, st, hok, -⟩
    · exact ⟨by rw [hh], e, by rw [hh]⟩
    · rw [hu] at hok
      cases hok
  · rcases registerResource_cases m reg greq with ⟨e, hh⟩ | ⟨urn, i, st, hok, -⟩
    · exact ⟨by rw [hh], e, by rw [hh]⟩
    · rw [hu'] at hok
      cases hok

/-- A read request whose parent lacks the `"::"`-separated components. -/
def malformedReadRequest : ReadResourceRequest :=
  ⟨"pkg:mod:Res", "res", JVal.vnull, "", "", true, "malformed"⟩

/-- A register request whose parent lacks the `"::"`-separated components. -/
def malformedRegisterRequest : RegisterResourceRequest :=
  ⟨"pkg:mod:Res", "res", JVal.vnull, "", "", true, "malformed"⟩

/-- C10, witness: the malformed parent `"malformed"` makes both handlers fail
through the callback and leaves the one-entry registry unchanged. -/
theorem c10_malformed_parent_caught_witness :
    ((bucketMonitor.readResource [(bucketUrn, bucketEntry)] malformedReadRequest).1 =
        [(bucketUrn, bucketEntry)] ∧
      ∃ e, (bucketMonitor.readResource [(bucketUrn, bucketEntry)]
        malformedReadRequest).2 = .error e) ∧
    ((bucketMonitor.registerResource [(bucketUrn, bucketEntry)] malformedRegisterRequest).1 =
        [(bucketUrn, bucketEntry)] ∧
      ∃ e, (bucketMonitor.registerResource [(bucketUrn, bucketEntry)]
        malformedRegisterRequest).2 = .error e) :=
  c10_malformed_parent_caught bucketMonitor [(bucketUrn, bucketEntry)]
    malformedReadRequest malformedRegisterRequest
    (by decide) (by decide) (by decide) (by decide)
